import Mathlib

/-!
Verification of the music-library read endpoints: the category browser
(`browse_all`) and the per-user top-tracks resolver (`get_top_tracks`).
The data model, the relational query pipeline, the `DefaultHasher`
(SipHash-1-3) identifier derivation and the two HTTP handlers are embedded
shallowly below; the theorems at the end settle the specification claims.
-/

/-! ## Data model -/

/-- Catalog row of the `music` table (all columns selected by the query). -/
structure Music where
  music_id : String
  artist : String
  title : String
  album : String
  genre : String
  times_played : Int
deriving DecidableEq, Repr

/-- Row of the `play_log` table: one entry per (user, track) pair. -/
structure PlayLogEntry where
  user_id : String
  music_id : String
  user_times_played : Int
deriving DecidableEq, Repr

/-- The relational store read by both handlers: the two named tables. -/
structure Db where
  music : List Music
  play_log : List PlayLogEntry
deriving DecidableEq, Repr

/-- Query parameters of the top-tracks endpoint.  `start_index` carries the
serde default of 0 when absent; `page_length` is optional. -/
structure TopTracksQueryParams where
  user_id : String
  start_index : Int
  page_length : Option Int
deriving DecidableEq, Repr

/-- Response item built by the enrichment step of `get_top_tracks`. -/
structure MusicResponse where
  id : String
  artist : String
  title : String
  album : String
  genre : String
  times_played : Int
  image_url : String
deriving DecidableEq, Repr

/-! ## DefaultHasher: SipHash-1-3 with keys (0, 0), as in Rust std -/

/-- Truncation to 64 bits. -/
def wrap64 (x : Nat) : Nat := x % 2 ^ 64

/-- Rotate a 64-bit value left by `r` bits. -/
def rotl64 (x r : Nat) : Nat := wrap64 (x * 2 ^ r) ||| (x % 2 ^ 64) / 2 ^ (64 - r)

/-- The four 64-bit state words of SipHash. -/
structure SipVec where
  v0 : Nat
  v1 : Nat
  v2 : Nat
  v3 : Nat
deriving DecidableEq, Repr

/-- One SipHash round. -/
def sipRound (s : SipVec) : SipVec :=
  let a0 := wrap64 (s.v0 + s.v1)
  let a1 := rotl64 s.v1 13
  let b1 := a1 ^^^ a0
  let b0 := rotl64 a0 32
  let a2 := wrap64 (s.v2 + s.v3)
  let a3 := rotl64 s.v3 16
  let b3 := a3 ^^^ a2
  let c0 := wrap64 (b0 + b3)
  let c3 := rotl64 b3 21
  let d3 := c3 ^^^ c0
  let c2 := wrap64 (a2 + b1)
  let c1 := rotl64 b1 17
  let d1 := c1 ^^^ c2
  let d2 := rotl64 c2 32
  ⟨c0, d1, d2, d3⟩

/-- Compression of one 64-bit message block with one round (c = 1 in
SipHash-1-3). -/
def sipCompress (s : SipVec) (m : Nat) : SipVec :=
  let s1 := sipRound { s with v3 := s.v3 ^^^ m }
  { s1 with v0 := s1.v0 ^^^ m }

/-- Little-endian value of a byte list (first byte least significant). -/
def leBytes (bs : List Nat) : Nat := bs.foldr (fun b acc => b + 256 * acc) 0

/-- State of Rust's `DefaultHasher`: the SipHash words plus the buffered
tail bytes (fewer than 8) and the total byte count written so far. -/
structure DefaultHasher where
  vecs : SipVec
  tail : List Nat
  length : Nat
deriving DecidableEq, Repr

/-- Fresh `DefaultHasher`: SipHasher13 with both keys 0, so the state words
are the bare SipHash constants. -/
def DefaultHasher.new : DefaultHasher :=
  { vecs := { v0 := 0x736f6d6570736575, v1 := 0x646f72616e646f6d,
              v2 := 0x6c7967656e657261, v3 := 0x7465646279746573 },
    tail := [], length := 0 }

/-- Feed one byte into the hasher, compressing whenever 8 bytes have
accumulated. -/
def DefaultHasher.writeByte (h : DefaultHasher) (b : Nat) : DefaultHasher :=
  let t := h.tail ++ [b]
  if t.length = 8 then
    { vecs := sipCompress h.vecs (leBytes t), tail := [], length := h.length + 1 }
  else
    { h with tail := t, length := h.length + 1 }

/-- Feed a byte sequence into the hasher (`Hasher::write`). -/
def DefaultHasher.write (h : DefaultHasher) (bs : List Nat) : DefaultHasher :=
  bs.foldl DefaultHasher.writeByte h

/-- Finalize (`Hasher::finish`): the length byte joins the tail in the last
block, then `v2` is flipped with `0xff` and three rounds (d = 3) run. -/
def DefaultHasher.finish (h : DefaultHasher) : Nat :=
  let b := (h.length % 256) * 2 ^ 56 + leBytes h.tail
  let s1 := sipCompress h.vecs b
  let s2 := sipRound (sipRound (sipRound { s1 with v2 := s1.v2 ^^^ 0xff }))
  s2.v0 ^^^ s2.v1 ^^^ s2.v2 ^^^ s2.v3

/-- UTF-8 encoding of one character. -/
def utf8Bytes (c : Char) : List Nat :=
  let n := c.toNat
  if n < 0x80 then [n]
  else if n < 0x800 then [0xC0 + n / 64, 0x80 + n % 64]
  else if n < 0x10000 then [0xE0 + n / 4096, 0x80 + n / 64 % 64, 0x80 + n % 64]
  else [0xF0 + n / 262144, 0x80 + n / 4096 % 64, 0x80 + n / 64 % 64, 0x80 + n % 64]

/-- UTF-8 bytes of a string. -/
def strBytes (s : String) : List Nat := s.data.flatMap utf8Bytes

/-- Rust's `Hash for str`: write the UTF-8 bytes, then the delimiter byte
`0xff` (so different (artist, album) splits of one concatenation differ). -/
def hashStr (h : DefaultHasher) (s : String) : DefaultHasher :=
  (h.write (strBytes s)).writeByte 0xff

/-! ## UUID construction and formatting (the `uuid` crate operations used) -/

/-- A 128-bit value from a high and a low 64-bit half
(`Uuid::from_u64_pair`). -/
def Uuid.from_u64_pair (high low : Nat) : Nat :=
  (high % 2 ^ 64) * 2 ^ 64 + low % 2 ^ 64

/-- Lowercase hex digit. -/
def hexDigit (n : Nat) : Char := Char.ofNat (if n < 10 then 48 + n else 87 + n)

/-- Exactly `w` lowercase hex digits of `n`, most significant first. -/
def hexChars : Nat → Nat → List Char
  | _, 0 => []
  | n, w + 1 => hexChars (n / 16) w ++ [hexDigit (n % 16)]

/-- Hyphenated rendering of a 128-bit value (`Uuid::to_string`): the 32 hex
digits in 8-4-4-4-12 groups, no bit forced. -/
def Uuid.toString (u : Nat) : String :=
  let d := hexChars u 32
  String.mk (d.take 8 ++ '-' :: (d.drop 8).take 4 ++ '-' :: (d.drop 12).take 4
    ++ '-' :: (d.drop 16).take 4 ++ '-' :: d.drop 20)

/-! ## The identifier derivation of `get_top_tracks` -/

/-- Image-URL derivation exactly as the enrichment closure does it: a fresh
`DefaultHasher`, `artist.hash`, `album.hash`, `finish`, then
`Uuid::from_u64_pair(hash, hash).to_string()`. -/
def imageUrlOf (artist album : String) : String :=
  let hasher0 := DefaultHasher.new
  let hasher1 := hashStr hasher0 artist
  let hasher2 := hashStr hasher1 album
  let hash := hasher2.finish
  Uuid.toString (Uuid.from_u64_pair hash hash)

/-- Identifier scheme as the specification words it: one delimited byte
stream (artist bytes, delimiter, album bytes, delimiter) fed to a single
stateful 64-bit accumulator; the 64-bit result `h` duplicated into both
halves of a 128-bit value; that value rendered verbatim in the 8-4-4-4-12
layout. -/
def specImageUrl (artist album : String) : String :=
  let h := (DefaultHasher.new.write
    (strBytes artist ++ [0xff] ++ strBytes album ++ [0xff])).finish
  Uuid.toString (h * 2 ^ 64 + h)

/-- Enrichment step of `get_top_tracks`: one response item per loaded
catalog row, fields copied, `image_url` derived from (artist, album). -/
def musicToResponse (entry : Music) : MusicResponse :=
  { id := entry.music_id
    artist := entry.artist
    title := entry.title
    album := entry.album
    genre := entry.genre
    times_played := entry.times_played
    image_url := imageUrlOf entry.artist entry.album }

example : (hexChars 255 4) = ['0', '0', 'f', 'f'] := by decide

/-! ## Relational semantics of the top-tracks query

The diesel query builds the SQL
`SELECT music.* FROM play_log INNER JOIN music ON play_log.music_id =
music.music_id WHERE user_id = ? AND user_times_played >= 1 ORDER BY
user_times_played DESC OFFSET ? [LIMIT ?]`; the relational collaborator is
interpreted over the list-based store in the standard way. -/

/-- Sort relation of `ORDER BY play_log.user_times_played DESC` on joined
rows. -/
def byPlaysDesc (a b : PlayLogEntry × Music) : Prop :=
  b.1.user_times_played ≤ a.1.user_times_played

instance : DecidableRel byPlaysDesc := fun a b =>
  inferInstanceAs (Decidable (b.1.user_times_played ≤ a.1.user_times_played))

/-- Filtered join: play-log rows of the user with at least one play, each
joined to the catalog rows carrying its `music_id`. -/
def joinedRows (db : Db) (uid : String) : List (PlayLogEntry × Music) :=
  (db.play_log.filter fun p => p.user_id == uid && decide (1 ≤ p.user_times_played)).flatMap
    fun p => (db.music.filter fun m => m.music_id == p.music_id).map fun m => (p, m)

/-- The joined rows ordered by user play count, descending. -/
def orderedRows (db : Db) (uid : String) : List (PlayLogEntry × Music) :=
  (joinedRows db uid).insertionSort byPlaysDesc

/-- Rows after `OFFSET start_index` and the conditional `LIMIT`: the limit
is attached only when `page_length` is present and strictly positive. -/
def pagedRows (db : Db) (params : TopTracksQueryParams) : List (PlayLogEntry × Music) :=
  let afterOffset := (orderedRows db params.user_id).drop params.start_index.toNat
  match params.page_length with
  | some l => if 0 < l then afterOffset.take l.toNat else afterOffset
  | none => afterOffset

/-- The `Music` rows the query loads (`select(music::all_columns)`). -/
def loadedMusic (db : Db) (params : TopTracksQueryParams) : List Music :=
  (pagedRows db params).map Prod.snd

/-! ## Handlers -/

/-- HTTP response shape consumed from the framework: a status code and a
string body. -/
structure Response where
  status : Nat
  body : String
deriving DecidableEq, Repr

/-- Outcomes of the collaborators a request consumes: pool acquisition,
query execution and response serialization; `none` is success, `some err`
carries the failure message interpolated into the body. -/
structure Collab where
  poolErr : Option String
  queryErr : Option String
  serErr : Option String
deriving DecidableEq, Repr

/-- Observable storage effects of a request, in order: a pool acquisition
attempt (with its outcome) and the execution of a query. -/
inductive DbEffect where
  | poolGet (ok : Bool)
  | query (descr : String)
deriving DecidableEq, Repr

/-- Modelled from the spec: the JSON encoder collaborator for a string
array body. -/
def jsonStringArray (items : List String) : String :=
  "[" ++ String.intercalate "," (items.map fun s => "\"" ++ s ++ "\"") ++ "]"

/-- Modelled from the spec: the JSON encoder collaborator for the
top-tracks response body. -/
def jsonResponseArray (items : List MusicResponse) : String :=
  "[" ++ String.intercalate "," (items.map fun r =>
    "[" ++ jsonStringArray [r.id, r.artist, r.title, r.album, r.genre,
      toString r.times_played, r.image_url] ++ "]") ++ "]"

/-- Distinct-value query of the category browser: the three literal
categories select the distinct values of their column; anything else is
rejected. -/
def browseQuery (db : Db) (category : String) : Option (List String) :=
  if category = "artists" then some (db.music.map Music.artist).dedup
  else if category = "albums" then some (db.music.map Music.album).dedup
  else if category = "genres" then some (db.music.map Music.genre).dedup
  else none

/-- The `browse_all` handler, with its trace of storage effects.  The
pooled connection is acquired first; only then is the category matched, and
a query runs only in the three valid arms. -/
def browse_all (env : Collab) (db : Db) (category : String) : Response × List DbEffect :=
  match env.poolErr with
  | some err => (⟨500, "Failed to get DB from pool: " ++ err⟩, [.poolGet false])
  | none =>
    match browseQuery db category with
    | none => (⟨400, "Invalid category. Use 'artists', 'albums', or 'genres'."⟩,
        [.poolGet true])
    | some items =>
      match env.queryErr with
      | some err => (⟨500, "Database error: " ++ err⟩, [.poolGet true, .query category])
      | none =>
        match env.serErr with
        | some err => (⟨500, "Failed to serialize response: " ++ err⟩,
            [.poolGet true, .query category])
        | none => (⟨200, jsonStringArray items⟩, [.poolGet true, .query category])

/-- The `get_top_tracks` handler: pool acquisition, query execution, the
empty-result check, enrichment, serialization — in the code's order. -/
def get_top_tracks (env : Collab) (db : Db) (params : TopTracksQueryParams) : Response :=
  match env.poolErr with
  | some err => ⟨500, "Failed to get DB from pool: " ++ err⟩
  | none =>
    match env.queryErr with
    | some err => ⟨500, "Database error: " ++ err⟩
    | none =>
      let music_entries := loadedMusic db params
      if music_entries.isEmpty then ⟨404, "No top tracks found"⟩
      else
        let responses := music_entries.map musicToResponse
        match env.serErr with
        | some err => ⟨500, "Failed to serialize response: " ++ err⟩
        | none => ⟨200, jsonResponseArray responses⟩

/-- The response list of a successful request, for the ordering claims. -/
def responseList (db : Db) (params : TopTracksQueryParams) : List MusicResponse :=
  (loadedMusic db params).map musicToResponse

/-! ## Concrete fixtures (the worked example of the specification) -/

/-- Catalog track A of the worked example. -/
def trackA : Music := ⟨"idA", "ArtistX", "TitleA", "AlbumY", "Pop", 100⟩

/-- Catalog track B of the worked example. -/
def trackB : Music := ⟨"idB", "ArtistZ", "TitleB", "AlbumW", "Rock", 3⟩

/-- Catalog track C of the worked example. -/
def trackC : Music := ⟨"idC", "ArtistQ", "TitleC", "AlbumQ", "Jazz", 50⟩

/-- A second track sharing artist and album with track A. -/
def trackA2 : Music := ⟨"idA2", "ArtistX", "OtherTitle", "AlbumY", "Metal", 7⟩

/-- Play-log row: user u1 played track A five times. -/
def pA : PlayLogEntry := ⟨"u1", "idA", 5⟩

/-- Play-log row: user u1 played track B nine times. -/
def pB : PlayLogEntry := ⟨"u1", "idB", 9⟩

/-- Play-log row: user u1 has track C at zero plays. -/
def pC : PlayLogEntry := ⟨"u1", "idC", 0⟩

/-- The store of the worked example. -/
def db0 : Db := ⟨[trackA, trackB, trackC], [pA, pB, pC]⟩

/-- Request of the worked example: user u1, offset 0, no page length. -/
def params0 : TopTracksQueryParams := ⟨"u1", 0, none⟩

/-- All collaborators succeed. -/
def collabOk : Collab := ⟨none, none, none⟩

/-! ## Helper lemmas -/

theorem wrap64_lt (x : Nat) : wrap64 x < 2 ^ 64 :=
  Nat.mod_lt _ (by norm_num)

theorem rotl64_lt (x r : Nat) : rotl64 x r < 2 ^ 64 :=
  Nat.or_lt_two_pow (wrap64_lt _)
    (lt_of_le_of_lt (Nat.div_le_self _ _) (Nat.mod_lt _ (by norm_num)))

theorem sipRound_v0_lt (s : SipVec) : (sipRound s).v0 < 2 ^ 64 := wrap64_lt _

theorem sipRound_v1_lt (s : SipVec) : (sipRound s).v1 < 2 ^ 64 :=
  Nat.xor_lt_two_pow (rotl64_lt _ _) (wrap64_lt _)

theorem sipRound_v2_lt (s : SipVec) : (sipRound s).v2 < 2 ^ 64 := rotl64_lt _ _

theorem sipRound_v3_lt (s : SipVec) : (sipRound s).v3 < 2 ^ 64 :=
  Nat.xor_lt_two_pow (rotl64_lt _ _) (wrap64_lt _)

theorem DefaultHasher.finish_lt (h : DefaultHasher) : h.finish < 2 ^ 64 := by
  unfold DefaultHasher.finish
  exact Nat.xor_lt_two_pow
    (Nat.xor_lt_two_pow
      (Nat.xor_lt_two_pow (sipRound_v0_lt _) (sipRound_v1_lt _)) (sipRound_v2_lt _))
    (sipRound_v3_lt _)

theorem DefaultHasher.write_append (h : DefaultHasher) (a b : List Nat) :
    h.write (a ++ b) = (h.write a).write b :=
  List.foldl_append _ _ _ _

/-- `Uuid::from_u64_pair(h, h)` is the duplication of `h` into both 64-bit
halves when `h` fits in 64 bits. -/
theorem Uuid.from_u64_pair_self {h : Nat} (hlt : h < 2 ^ 64) :
    Uuid.from_u64_pair h h = h * 2 ^ 64 + h := by
  unfold Uuid.from_u64_pair
  rw [Nat.mod_eq_of_lt hlt]

/-! ## Claim C2 -/

/-- C2: for every track, the `image_url` identifier is obtained by feeding
the UTF-8 bytes of artist then album, in that fixed order and each
terminated by the delimiter byte `0xff`, into a single stateful 64-bit
accumulator (`DefaultHasher`, SipHash-1-3), duplicating the 64-bit result
into both the high and the low half of a 128-bit value, and rendering that
value verbatim in the 8-4-4-4-12 hyphenated layout with no version or
variant bit forced — exactly the scheme `specImageUrl` words out. -/
theorem image_url_matches_spec_scheme (artist album : String) :
    imageUrlOf artist album = specImageUrl artist album := by
  have hw : DefaultHasher.new.write
      (strBytes artist ++ ([0xff] ++ (strBytes album ++ [0xff]))) =
      (((DefaultHasher.new.write (strBytes artist)).writeByte 0xff).write
        (strBytes album)).writeByte 0xff := by
    rw [DefaultHasher.write_append, DefaultHasher.write_append,
      DefaultHasher.write_append]
    rfl
  unfold imageUrlOf specImageUrl hashStr
  dsimp only
  rw [show (strBytes artist ++ [0xff] ++ strBytes album ++ [0xff] : List Nat) =
      strBytes artist ++ ([0xff] ++ (strBytes album ++ [0xff])) by simp, hw,
    Uuid.from_u64_pair_self (DefaultHasher.finish_lt _)]

theorem browseQuery_invalid (db : Db) (category : String)
    (h1 : category ≠ "artists") (h2 : category ≠ "albums") (h3 : category ≠ "genres") :
    browseQuery db category = none := by
  simp [browseQuery, h1, h2, h3]

/-! ## Claim C1 -/

/-- C1 counterexample: the handler acquires the pooled connection before
the category is examined.  For the invalid category "colors" with a healthy
pool the response is 400, yet a connection has been acquired; and with a
failing pool the very same invalid category yields the 500 pool error, not
the 400 InvalidInput outcome. -/
theorem browse_invalid_category_conn_cex :
    (browse_all collabOk db0 "colors").1.status = 400 ∧
    DbEffect.poolGet true ∈ (browse_all collabOk db0 "colors").2 ∧
    (browse_all ⟨some "pool down", none, none⟩ db0 "colors").1.status = 500 := by
  decide

/-- C1 (amended): for every category string that is not one of the three
literals, no query is ever executed; when pool acquisition succeeds the
handler fails with the InvalidInput (400) outcome — but a connection is
acquired from the pool before validation, and a pool-acquisition failure
takes precedence with a 500. -/
theorem browse_invalid_category_rejected (env : Collab) (db : Db) (category : String)
    (h : category ≠ "artists" ∧ category ≠ "albums" ∧ category ≠ "genres") :
    (∀ q, DbEffect.query q ∉ (browse_all env db category).2) ∧
    (env.poolErr = none →
      browse_all env db category =
        (⟨400, "Invalid category. Use 'artists', 'albums', or 'genres'."⟩,
         [DbEffect.poolGet true])) ∧
    (∀ e, env.poolErr = some e → (browse_all env db category).1.status = 500) := by
  obtain ⟨h1, h2, h3⟩ := h
  have hq := browseQuery_invalid db category h1 h2 h3
  refine ⟨?_, ?_, ?_⟩
  · intro q
    cases hpe : env.poolErr <;> simp [browse_all, hpe, hq]
  · intro hpe
    simp [browse_all, hpe, hq]
  · intro e hpe
    simp [browse_all, hpe]

/-- Witness for the amended C1 at the invalid category "colors". -/
theorem browse_invalid_category_rejected_witness :
    (∀ q, DbEffect.query q ∉ (browse_all collabOk db0 "colors").2) ∧
    browse_all collabOk db0 "colors" =
      (⟨400, "Invalid category. Use 'artists', 'albums', or 'genres'."⟩,
       [DbEffect.poolGet true]) :=
  ⟨(browse_invalid_category_rejected collabOk db0 "colors"
      ⟨by decide, by decide, by decide⟩).1,
   (browse_invalid_category_rejected collabOk db0 "colors"
      ⟨by decide, by decide, by decide⟩).2.1 rfl⟩

/-! ## Claim C8 -/

/-- C8: for each of the three valid categories the browse query yields a
duplicate-free sequence whose members are exactly the values of the
corresponding column across the catalog (no ordering guaranteed). -/
theorem browse_valid_categories_distinct (db : Db) :
    (∃ xs, browseQuery db "artists" = some xs ∧ xs.Nodup ∧
      ∀ s, s ∈ xs ↔ ∃ m ∈ db.music, m.artist = s) ∧
    (∃ xs, browseQuery db "albums" = some xs ∧ xs.Nodup ∧
      ∀ s, s ∈ xs ↔ ∃ m ∈ db.music, m.album = s) ∧
    (∃ xs, browseQuery db "genres" = some xs ∧ xs.Nodup ∧
      ∀ s, s ∈ xs ↔ ∃ m ∈ db.music, m.genre = s) := by
  refine ⟨⟨(db.music.map Music.artist).dedup, by simp [browseQuery],
        List.nodup_dedup _, ?_⟩,
      ⟨(db.music.map Music.album).dedup, by simp [browseQuery],
        List.nodup_dedup _, ?_⟩,
      ⟨(db.music.map Music.genre).dedup, by simp [browseQuery],
        List.nodup_dedup _, ?_⟩⟩ <;>
    intro s <;> simp [List.mem_dedup, List.mem_map]

/-! ## Claim C3 -/

/-- C3: `image_url` is a pure function of the pair (artist, album): any two
track records agreeing on `artist` and `album` receive the identical
`image_url` string from the enrichment step, whatever their other fields. -/
theorem image_url_pure_in_artist_album (e1 e2 : Music)
    (ha : e1.artist = e2.artist) (hb : e1.album = e2.album) :
    (musicToResponse e1).image_url = (musicToResponse e2).image_url := by
  simp [musicToResponse, ha, hb]

/-- Witness for C3: tracks A and A2 differ in id, title, genre and play
count but share artist and album, and their derived identifiers coincide. -/
theorem image_url_pure_in_artist_album_witness :
    trackA.artist = trackA2.artist ∧ trackA.album = trackA2.album ∧
    (musicToResponse trackA).image_url = (musicToResponse trackA2).image_url :=
  ⟨rfl, rfl, image_url_pure_in_artist_album trackA trackA2 rfl rfl⟩

/-! ## Query-pipeline lemmas -/

instance : IsTotal (PlayLogEntry × Music) byPlaysDesc :=
  ⟨fun a b => le_total b.1.user_times_played a.1.user_times_played⟩

instance : IsTrans (PlayLogEntry × Music) byPlaysDesc :=
  ⟨fun _ _ _ h1 h2 => le_trans h2 h1⟩

theorem orderedRows_sorted (db : Db) (uid : String) :
    (orderedRows db uid).Sorted byPlaysDesc :=
  List.sorted_insertionSort byPlaysDesc _

theorem pagedRows_sublist (db : Db) (params : TopTracksQueryParams) :
    (pagedRows db params).Sublist (orderedRows db params.user_id) := by
  unfold pagedRows
  cases hpl : params.page_length with
  | none => exact List.drop_sublist _ _
  | some l =>
    by_cases hl : 0 < l
    · simp only [hl, if_true]
      exact (List.take_sublist _ _).trans (List.drop_sublist _ _)
    · simp only [hl, if_false]
      exact List.drop_sublist _ _

theorem mem_joinedRows {db : Db} {uid : String} {p : PlayLogEntry} {m : Music} :
    (p, m) ∈ joinedRows db uid ↔
      p ∈ db.play_log ∧ p.user_id = uid ∧ 1 ≤ p.user_times_played ∧
      m ∈ db.music ∧ m.music_id = p.music_id := by
  simp only [joinedRows, List.mem_flatMap, List.mem_map, List.mem_filter,
    Bool.and_eq_true, beq_iff_eq, decide_eq_true_eq, Prod.mk.injEq]
  constructor
  · rintro ⟨p1, ⟨hp1, hu, ht⟩, m1, ⟨hm1, hid⟩, hpe, hme⟩
    subst hpe; subst hme
    exact ⟨hp1, hu, ht, hm1, hid⟩
  · rintro ⟨hp, hu, ht, hm, hid⟩
    exact ⟨p, ⟨hp, hu, ht⟩, m, ⟨hm, hid⟩, rfl, rfl⟩

theorem mem_orderedRows {db : Db} {uid : String} {x : PlayLogEntry × Music} :
    x ∈ orderedRows db uid ↔ x ∈ joinedRows db uid :=
  (List.perm_insertionSort byPlaysDesc _).mem_iff

theorem get_top_tracks_status (env : Collab) (db : Db) (params : TopTracksQueryParams) :
    (get_top_tracks env db params).status = 200 ∨
    (get_top_tracks env db params).status = 404 ∨
    (get_top_tracks env db params).status = 500 := by
  unfold get_top_tracks
  cases env.poolErr with
  | some e => simp
  | none =>
    cases env.queryErr with
    | some e => simp
    | none =>
      by_cases hE : (loadedMusic db params).isEmpty
      · simp [hE]
      · cases env.serErr with
        | some e => simp [hE]
        | none => simp [hE]

/-! ## Claim C4 -/

/-- C4: the rows of a successful top-tracks query are sorted by the user
play count, non-increasing, and the enrichment step maps the query rows to
response items position by position — the response order is exactly the
query order, with no re-sorting. -/
theorem top_tracks_sorted_and_enrichment_preserves_order
    (db : Db) (params : TopTracksQueryParams) :
    ((pagedRows db params).map fun r => r.1.user_times_played).Sorted (· ≥ ·) ∧
    (responseList db params).length = (pagedRows db params).length ∧
    ∀ (i : Nat) (hr : i < (responseList db params).length)
      (hp : i < (pagedRows db params).length),
      (responseList db params).get ⟨i, hr⟩ =
        musicToResponse ((pagedRows db params).get ⟨i, hp⟩).2 := by
  refine ⟨?_, ?_, ?_⟩
  · have hs : (pagedRows db params).Sorted byPlaysDesc :=
      List.Pairwise.sublist (pagedRows_sublist db params)
        (orderedRows_sorted db params.user_id)
    exact List.pairwise_map.mpr hs
  · simp [responseList, loadedMusic]
  · intro i hr hp
    simp [responseList, loadedMusic, List.get_eq_getElem, List.getElem_map]

/-- Witness for C4 at the worked example: the play counts [9, 5] are
non-increasing and the first response item is the enrichment of the first
query row. -/
theorem top_tracks_sorted_witness :
    ((pagedRows db0 params0).map fun r => r.1.user_times_played).Sorted (· ≥ ·) ∧
    (responseList db0 params0).get ⟨0, by decide⟩ =
      musicToResponse ((pagedRows db0 params0).get ⟨0, by decide⟩).2 :=
  ⟨(top_tracks_sorted_and_enrichment_preserves_order db0 params0).1,
   (top_tracks_sorted_and_enrichment_preserves_order db0 params0).2.2 0
     (by decide) (by decide)⟩

/-! ## Claim C5 -/

/-- C5: every row of the top-tracks query comes from a play-log entry of
the requested user with at least one play (entries at zero never appear),
joined to the catalog row with its music id; and with offset 0 and no page
length the result rows are exactly those. -/
theorem top_tracks_row_membership (db : Db) (params : TopTracksQueryParams) :
    (∀ r ∈ pagedRows db params,
        r.1 ∈ db.play_log ∧ r.1.user_id = params.user_id ∧
        1 ≤ r.1.user_times_played ∧ r.2 ∈ db.music ∧
        r.2.music_id = r.1.music_id) ∧
    (params.start_index = 0 → params.page_length = none →
      ∀ p m, ((p, m) ∈ pagedRows db params ↔
        p ∈ db.play_log ∧ p.user_id = params.user_id ∧
        1 ≤ p.user_times_played ∧ m ∈ db.music ∧ m.music_id = p.music_id)) := by
  constructor
  · rintro ⟨p, m⟩ hr
    exact mem_joinedRows.mp
      (mem_orderedRows.mp ((pagedRows_sublist db params).subset hr))
  · intro h0 hn p m
    have hpaged : pagedRows db params = orderedRows db params.user_id := by
      unfold pagedRows
      rw [hn, h0]
      exact List.drop_zero _
    rw [hpaged, mem_orderedRows, mem_joinedRows]

/-- Witness for C5: the row of track B is in the result, and the
characterization holds for it at the worked example. -/
theorem top_tracks_row_membership_witness :
    (pB, trackB) ∈ pagedRows db0 params0 ↔
      pB ∈ db0.play_log ∧ pB.user_id = params0.user_id ∧
      1 ≤ pB.user_times_played ∧ trackB ∈ db0.music ∧
      trackB.music_id = pB.music_id :=
  (top_tracks_row_membership db0 params0).2 rfl rfl pB trackB

/-! ## Claim C6 -/

/-- C6: a limit is attached exactly when `page_length` is present and
strictly positive; a present but non-positive value and an absent value
both leave the full remaining sequence after the offset untouched. -/
theorem top_tracks_page_length_policy (db : Db) (params : TopTracksQueryParams) :
    (∀ l, params.page_length = some l → 0 < l →
      pagedRows db params =
        ((orderedRows db params.user_id).drop params.start_index.toNat).take l.toNat) ∧
    (∀ l, params.page_length = some l → l ≤ 0 →
      pagedRows db params =
        (orderedRows db params.user_id).drop params.start_index.toNat) ∧
    (params.page_length = none →
      pagedRows db params =
        (orderedRows db params.user_id).drop params.start_index.toNat) := by
  refine ⟨?_, ?_, ?_⟩
  · intro l hl hpos
    simp [pagedRows, hl, hpos]
  · intro l hl hnp
    simp [pagedRows, hl, not_lt.mpr hnp]
  · intro hn
    simp [pagedRows, hn]

/-- Witness for C6: a page length of 1 truncates the worked example to one
row, and a page length of 0 passes the full remaining sequence through. -/
theorem top_tracks_page_length_policy_witness :
    pagedRows db0 ⟨"u1", 0, some 1⟩ =
      ((orderedRows db0 (⟨"u1", 0, some 1⟩ : TopTracksQueryParams).user_id).drop
        (⟨"u1", 0, some 1⟩ : TopTracksQueryParams).start_index.toNat).take (1 : Int).toNat ∧
    pagedRows db0 ⟨"u1", 0, some 0⟩ =
      (orderedRows db0 (⟨"u1", 0, some 0⟩ : TopTracksQueryParams).user_id).drop
        (⟨"u1", 0, some 0⟩ : TopTracksQueryParams).start_index.toNat :=
  ⟨(top_tracks_page_length_policy db0 ⟨"u1", 0, some 1⟩).1 1 rfl one_pos,
   (top_tracks_page_length_policy db0 ⟨"u1", 0, some 0⟩).2.1 0 rfl le_rfl⟩

/-! ## Claim C7 -/

/-- C7: a successful query with an empty result — in particular an offset
at or beyond the qualifying-row count — produces exactly the NotFound (404)
response; the 404 status arises precisely in this situation, so it is
distinct from the 500 outcomes of the pool, query and serialization
failures. -/
theorem top_tracks_empty_is_not_found (env : Collab) (db : Db)
    (params : TopTracksQueryParams)
    (hp : env.poolErr = none) (hq : env.queryErr = none)
    (he : loadedMusic db params = []) :
    get_top_tracks env db params = ⟨404, "No top tracks found"⟩ ∧
    ((orderedRows db params.user_id).length ≤ params.start_index.toNat →
      loadedMusic db params = []) ∧
    (∀ env2 db2 p2, ((get_top_tracks env2 db2 p2).status = 404 ↔
      env2.poolErr = none ∧ env2.queryErr = none ∧ loadedMusic db2 p2 = [])) := by
  refine ⟨?_, ?_, ?_⟩
  · simp [get_top_tracks, hp, hq, he]
  · intro hlen
    have hdrop : (orderedRows db params.user_id).drop params.start_index.toNat = [] :=
      List.drop_eq_nil_of_le hlen
    unfold loadedMusic pagedRows
    cases hpl : params.page_length with
    | none => simp [hdrop]
    | some l =>
      by_cases hl : 0 < l
      · simp [hl, hdrop]
      · simp [hl, hdrop]
  · intro env2 db2 p2
    cases hpe : env2.poolErr with
    | some e => simp [get_top_tracks, hpe]
    | none =>
      cases hqe : env2.queryErr with
      | some e => simp [get_top_tracks, hpe, hqe]
      | none =>
        by_cases hE : loadedMusic db2 p2 = []
        · simp [get_top_tracks, hpe, hqe, hE]
        · cases hse : env2.serErr with
          | some e => simp [get_top_tracks, hpe, hqe, hse, List.isEmpty_iff, hE]
          | none => simp [get_top_tracks, hpe, hqe, hse, List.isEmpty_iff, hE]

/-- Witness for C7: user u1 with offset 100 is beyond the two qualifying
rows of the worked example, and the response is the 404 one. -/
theorem top_tracks_empty_is_not_found_witness :
    get_top_tracks collabOk db0 ⟨"u1", 100, none⟩ = ⟨404, "No top tracks found"⟩ :=
  (top_tracks_empty_is_not_found collabOk db0 ⟨"u1", 100, none⟩ rfl rfl (by decide)).1

/-! ## Claim C9 -/

/-- C9: each response item's `times_played` is copied from the catalog
track's global play count (the `music` columns the query selects), not the
per-user `user_times_played` the query filters and orders by — at the
worked example the two demonstrably differ (3 against 9) on a returned
row. -/
theorem top_tracks_times_played_is_global (db : Db) (params : TopTracksQueryParams) :
    (∀ r ∈ pagedRows db params,
      (musicToResponse r.2).times_played = r.2.times_played) ∧
    ((musicToResponse (pB, trackB).2).times_played = 3 ∧
      (pB, trackB).1.user_times_played = 9 ∧
      (pB, trackB) ∈ pagedRows db0 params0) := by
  constructor
  · rintro ⟨p, m⟩ _
    rfl
  · exact ⟨rfl, rfl, by decide⟩

/-- Witness for C9 on the first returned row of the worked example. -/
theorem top_tracks_times_played_is_global_witness :
    (musicToResponse (pB, trackB).2).times_played = (pB, trackB).2.times_played :=
  (top_tracks_times_played_is_global db0 params0).1 (pB, trackB) (by decide)

/-! ## Claim C10 -/

/-- C10: the handler never validates `start_index`: every response status
is 200, 404 or 500 — never the InvalidInput 400 — and a negative
`start_index` is passed through to the query, where it selects the same
rows as offset 0. -/
theorem top_tracks_no_start_index_validation (env : Collab) (db : Db)
    (params : TopTracksQueryParams) :
    (get_top_tracks env db params).status ≠ 400 ∧
    (get_top_tracks env db params).status ∈ ([200, 404, 500] : List Nat) ∧
    (params.start_index < 0 →
      loadedMusic db params =
        loadedMusic db ⟨params.user_id, 0, params.page_length⟩) := by
  refine ⟨?_, ?_, ?_⟩
  · rcases get_top_tracks_status env db params with h | h | h <;> simp [h]
  · rcases get_top_tracks_status env db params with h | h | h <;> simp [h]
  · intro hneg
    have h0 : params.start_index.toNat = 0 := Int.toNat_of_nonpos (le_of_lt hneg)
    simp [loadedMusic, pagedRows, h0]

/-- Witness for C10: a request with `start_index = -3` is answered without
an InvalidInput status and loads the same rows as offset 0. -/
theorem top_tracks_no_start_index_validation_witness :
    (get_top_tracks collabOk db0 ⟨"u1", -3, none⟩).status ≠ 400 ∧
    loadedMusic db0 ⟨"u1", -3, none⟩ =
      loadedMusic db0 ⟨(⟨"u1", -3, none⟩ : TopTracksQueryParams).user_id, 0,
        (⟨"u1", -3, none⟩ : TopTracksQueryParams).page_length⟩ :=
  ⟨(top_tracks_no_start_index_validation collabOk db0 ⟨"u1", -3, none⟩).1,
   (top_tracks_no_start_index_validation collabOk db0 ⟨"u1", -3, none⟩).2.2 (by decide)⟩
